import Mathlib

/-!
Verification development for the Congressional-trading data pipeline
(`backend/` of the repository): shallow embedding of the record
normalizer (`data_collector.py`, `real_data_scraper.py`), the collection
orchestrator, and the query/aggregation routers (`routers/trades.py`,
`routers/members.py`, `routers/committees.py`), together with theorems
about the documented behaviour.

Modelling conventions:
* Python floats are modelled as exact rationals (`ℚ`), built with `mkRat`
  so that terms evaluate by kernel reduction.
* `datetime` values are modelled as integers; a parsed calendar date is
  encoded as `year*10000 + month*100 + day` (monotone in calendar order),
  and the `utcnow() - timedelta(days = n)` idiom as integer subtraction,
  with `now` passed as a parameter.  No claim compares a parsed date with
  a window boundary, so the two scales never mix.
* SQLAlchemy queries over the relational store are modelled as list
  pipelines over an explicit `Store`; `ilike "%x%"` is case-insensitive
  substring containment, `.first()` is `List.find?`, auto-increment ids
  are positions in the member list.
* Strings are handled through their character lists so that every
  definition reduces inside the kernel.
-/

namespace CongressTrading

/-- Value of a decimal digit character. -/
def digitVal (c : Char) : Nat := c.toNat - 48

/-- Decimal reading of a digit list (most significant first). -/
def parseDigits (cs : List Char) : Nat :=
  cs.foldl (fun a c => a * 10 + digitVal c) 0

/-- Split a character list at every occurrence of `c`, Python
`str.split(c)` style: `"a-b" ↦ ["a","b"]`, `"-b" ↦ ["","b"]`, `"" ↦ [""]`. -/
def splitOnChar (c : Char) : List Char → List (List Char)
  | [] => [[]]
  | x :: xs =>
    let r := splitOnChar c xs
    if x == c then [] :: r
    else
      match r with
      | [] => [[x]]
      | h :: t => (x :: h) :: t

/-- Lower-cased character list of a string (models Python `str.lower()`
for the ASCII data this pipeline handles). -/
def strLower (s : String) : List Char := s.data.map Char.toLower

/-- Case-insensitive substring containment: models the SQL filter
`column ILIKE '%pat%'` produced by `Member.name.ilike(f"%{name}%")`. -/
def ilikeContains (hay pat : String) : Bool :=
  decide (strLower pat <:+: strLower hay)

/-- Replacement of every occurrence of a single character by a string,
over character lists. -/
def replaceCharList (c : Char) (rep : List Char) : List Char → List Char
  | [] => []
  | x :: xs => (if x == c then rep else [x]) ++ replaceCharList c rep xs

/-- Python `s.replace(c, rep)` for a one-character pattern, as used by
`.replace('Z', '+00:00')` in `data_collector.py`. -/
def pyReplaceChar (s : String) (c : Char) (rep : String) : String :=
  ⟨replaceCharList c rep.data s.data⟩

/-- Python `str.title()` restricted to what the routers feed it
(`chamber.title()`): the first letter of each alphabetic run is
upper-cased, the rest lower-cased. -/
def pyTitleAux : List Char → Bool → List Char
  | [], _ => []
  | c :: cs, prevAlpha =>
    if c.isAlpha then
      (if prevAlpha then c.toLower else c.toUpper) :: pyTitleAux cs true
    else
      c :: pyTitleAux cs false

/-- Python `str.title()` (see `pyTitleAux`). -/
def pyTitle (s : String) : String := ⟨pyTitleAux s.data false⟩

/-- Python `str.lower()` returning a string. -/
def pyLower (s : String) : String := ⟨strLower s⟩

/-- Sign wrapper used by the float parser. -/
def intOfSign (neg : Bool) (n : Nat) : Int :=
  if neg then -(n : Int) else (n : Int)

/-- Model of Python `float(str)` on the decimal fragment this pipeline
produces (optional sign, digits, at most one point; at least one digit).
Exotic accepted spellings of CPython (`"1e3"`, `"inf"`, underscores,
surrounding whitespace) are outside the sanitized alphabets that reach
`float` here and are modelled as parse failures. -/
def pyFloat? (s : String) : Option ℚ :=
  let cs := s.data
  let neg := cs.headD ' ' == '-'
  let body := if cs.headD ' ' == '-' || cs.headD ' ' == '+' then cs.tail else cs
  match splitOnChar '.' body with
  | [ip] =>
    if !ip.isEmpty && ip.all Char.isDigit then
      some (mkRat (intOfSign neg (parseDigits ip)) 1)
    else none
  | [ip, fp] =>
    if (!ip.isEmpty || !fp.isEmpty) && ip.all Char.isDigit && fp.all Char.isDigit then
      some (mkRat (intOfSign neg (parseDigits ip * 10 ^ fp.length + parseDigits fp)) (10 ^ fp.length))
    else none
  | _ => none

/-- Model of Python `datetime.fromisoformat` restricted to the shapes
this repository feeds it: a `YYYY-MM-DD` prefix (fields range-checked),
optionally followed by a `T` or space separated time suffix (whose inner
digits are not re-validated by this model).  The result is the encoding
`year*10000 + month*100 + day`; absent or malformed input is `none`,
matching the `ValueError` the source catches. -/
def fromIso? (s : String) : Option Int :=
  match s.data with
  | y1 :: y2 :: y3 :: y4 :: s1 :: m1 :: m2 :: s2 :: d1 :: d2 :: rest =>
    if y1.isDigit && y2.isDigit && y3.isDigit && y4.isDigit &&
       (s1 == '-') && m1.isDigit && m2.isDigit && (s2 == '-') && d1.isDigit && d2.isDigit then
      let y := ((digitVal y1 * 10 + digitVal y2) * 10 + digitVal y3) * 10 + digitVal y4
      let mo := digitVal m1 * 10 + digitVal m2
      let dy := digitVal d1 * 10 + digitVal d2
      if 1 ≤ mo ∧ mo ≤ 12 ∧ 1 ≤ dy ∧ dy ≤ 31 ∧
         (rest = [] ∨ rest.headD ' ' = 'T' ∨ rest.headD ' ' = ' ') then
        some ((y : Int) * 10000 + (mo : Int) * 100 + (dy : Int))
      else none
    else none
  | _ => none

/-- Date parsing as performed on the Senate feed:
`datetime.fromisoformat(raw.replace('Z', '+00:00'))`
(`data_collector.py` lines 102 and 107). -/
def senateDate? (s : String) : Option Int :=
  fromIso? (pyReplaceChar s 'Z' "+00:00")

/-- Member row of the `members` table (`models.py`), restricted to the
fields the embedded operations read. -/
structure Member where
  id : Nat
  name : String
  chamber : String
  state : String
  party : String
  deriving DecidableEq

/-- Trade row of the `trades` table (`models.py`).  Field
`exchangeRatioValue` embeds the source column `exchange_ratio`. -/
structure Trade where
  memberId : Nat
  ticker : String
  companyName : String
  transactionType : String
  transactionDate : Int
  amountMin : Option ℚ
  amountMax : Option ℚ
  amountExact : Option ℚ
  exchangeFromTicker : Option String
  exchangeFromCompany : Option String
  exchangeFromAmount : Option ℚ
  exchangeRatioValue : Option ℚ
  exchangeReason : Option String
  description : String
  source : String
  filingDate : Option Int
  deriving DecidableEq

/-- Committee row of the `committees` table (`models.py`). -/
structure Committee where
  id : Nat
  name : String
  code : String
  chamber : String
  subcommittee : Bool
  parentCommitteeId : Option Nat
  description : String
  deriving DecidableEq

/-- The relational store: the three tables the embedded operations
touch. -/
structure Store where
  members : List Member
  trades : List Trade
  committees : List Committee
  deriving DecidableEq

/-- The empty store. -/
def emptyStore : Store := { members := [], trades := [], committees := [] }

/-- Raw record of the Senate Stock Watcher feed as consumed by
`CongressDataCollector._save_senate_trade`.  Every field is read with
`.get(key, '')`, so an absent key is the empty string.  The source key
`type` is embedded as `txnType`. -/
structure RawSenateRecord where
  senator : String
  ticker : String
  asset_description : String
  txnType : String
  transaction_date : String
  amount_min : String
  amount_max : String
  description : String
  filing_date : String
  state : String
  party : String
  deriving DecidableEq

/-- Amount parser of `CongressDataCollector._parse_amount`
(`data_collector.py` lines 116-127): strip `$` and `,`, then `float`;
empty input or a `ValueError` yields `None`. -/
def dcParseAmount (amount_str : String) : Option ℚ :=
  if amount_str = "" then none
  else
    pyFloat? ⟨(amount_str.data.filter (fun ch => !(ch == '$'))).filter (fun ch => !(ch == ','))⟩

/-- Predicate of the member lookup in `_save_senate_trade`:
`Member.name.ilike(f"%{senator_name}%")` AND `Member.chamber == "Senate"`. -/
def senateNameMatch (name : String) (m : Member) : Bool :=
  ilikeContains m.name name && (m.chamber == "Senate")

/-- Member resolution of `_save_senate_trade`: first row matching the
case-insensitive name containment and the Senate chamber. -/
def resolveSenator (ms : List Member) (name : String) : Option Member :=
  ms.find? (senateNameMatch name)

/-- The Member row `_save_senate_trade` creates when resolution fails;
its id models the auto-increment key assigned at flush. -/
def newSenateMember (store : Store) (r : RawSenateRecord) : Member :=
  { id := store.members.length
    name := r.senator
    chamber := "Senate"
    state := r.state
    party := r.party }

/-- The Trade row built by `_save_senate_trade` once both dates parsed. -/
def senateTradeRecord (member : Member) (r : RawSenateRecord) (td : Int) (fd : Option Int) : Trade :=
  { memberId := member.id
    ticker := r.ticker
    companyName := r.asset_description
    transactionType := r.txnType
    transactionDate := td
    amountMin := dcParseAmount r.amount_min
    amountMax := dcParseAmount r.amount_max
    amountExact := none
    exchangeFromTicker := none
    exchangeFromCompany := none
    exchangeFromAmount := none
    exchangeRatioValue := none
    exchangeReason := none
    description := r.description
    source := "Senate Stock Watcher"
    filingDate := fd }

/-- Date-dependent tail of `_save_senate_trade`: the member has already
been resolved or created (and flushed) when the transaction date is
parsed, so a `ValueError` here — caught by the surrounding
`try/except` — leaves the store as it stands, without a trade row.
The filing date is parsed only when non-empty and its failure likewise
aborts only the trade insert. -/
def saveSenateTradeRow (store : Store) (member : Member) (r : RawSenateRecord) : Store :=
  match senateDate? r.transaction_date with
  | none => store
  | some td =>
    match (if r.filing_date = "" then some none else (senateDate? r.filing_date).map some) with
    | none => store
    | some fd =>
      { store with trades := store.trades ++ [senateTradeRecord member r td fd] }

/-- Normalization of one Senate raw record,
`CongressDataCollector._save_senate_trade` (`data_collector.py` lines
66-114): empty subject name returns immediately; otherwise the member is
resolved or created, then the trade row is inserted unless a date fails
to parse (any exception is caught by the method's `try/except`). -/
def saveSenateTrade (store : Store) (r : RawSenateRecord) : Store :=
  if r.senator = "" then store
  else
    match resolveSenator store.members r.senator with
    | some m => saveSenateTradeRow store m r
    | none =>
      saveSenateTradeRow
        { store with members := store.members ++ [newSenateMember store r] }
        (newSenateMember store r) r

/-- Batch loop of `CongressDataCollector._process_senate_file`
(`data_collector.py` lines 51-64): every record of the file is passed to
`_save_senate_trade` in order. -/
def processSenateFile (store : Store) (batch : List RawSenateRecord) : Store :=
  batch.foldl saveSenateTrade store

/-- Raw trade extracted from a disclosure table row by
`RealDataScraper._extract_trade_from_row`; note the shape carries no
transaction-date field at all. -/
structure RawScrapedTrade where
  member_name : String
  ticker : String
  transaction_type : String
  amount : String
  deriving DecidableEq

/-- Amount parser of `RealDataScraper._parse_amount`
(`real_data_scraper.py` lines 197-219): strip `$` and `,`, drop every
character other than digits, `.` and `-` (the two `re.sub` calls compose
to this single filter), then split on `-` when present; an empty part
defaults to `0` (resp. the min); any `ValueError` yields `(0, 0)`. -/
def scraperParseAmount (amount_str : String) : ℚ × ℚ :=
  let cs := amount_str.data.filter (fun ch => ch.isDigit || ch == '.' || ch == '-')
  if cs.contains '-' then
    let parts := splitOnChar '-' cs
    let p0 := parts.headD []
    let p1 := (parts.drop 1).headD []
    match (if p0.isEmpty then some 0 else pyFloat? ⟨p0⟩) with
    | none => (0, 0)
    | some mn =>
      match (if p1.isEmpty then some mn else pyFloat? ⟨p1⟩) with
      | none => (0, 0)
      | some mx => (mn, mx)
  else
    match (if cs.isEmpty then some 0 else pyFloat? ⟨cs⟩) with
    | none => (0, 0)
    | some a => (a, a)

/-- Member resolution of `RealDataScraper._save_trade`: name containment
only, with no chamber condition. -/
def resolveScraperMember (ms : List Member) (name : String) : Option Member :=
  ms.find? (fun m => ilikeContains m.name name)

/-- The Member row `_save_trade` creates when resolution fails. -/
def newHouseMember (ms : List Member) (name : String) : Member :=
  { id := ms.length
    name := name
    chamber := "House"
    state := "Unknown"
    party := "Unknown" }

/-- The Trade row built by `RealDataScraper._save_trade`: its
transaction date is `datetime.utcnow() - timedelta(days=30)` — a fixed
default, commented "Default to 30 days ago" in the source. -/
def scrapedTradeRecord (now : Int) (member : Member) (q : RawScrapedTrade) : Trade :=
  { memberId := member.id
    ticker := q.ticker
    companyName := q.ticker ++ " Corporation"
    transactionType := q.transaction_type
    transactionDate := now - 30
    amountMin := some (scraperParseAmount q.amount).1
    amountMax := some (scraperParseAmount q.amount).2
    amountExact := none
    exchangeFromTicker := none
    exchangeFromCompany := none
    exchangeFromAmount := none
    exchangeRatioValue := none
    exchangeReason := none
    description := "Scraped from House disclosure"
    source := "House Clerk Website"
    filingDate := none }

/-- Trade insertion used by both branches of `scraperSaveTrade`. -/
def scraperTradeAppend (now : Int) (store : Store) (member : Member) (q : RawScrapedTrade) : Store :=
  { store with trades := store.trades ++ [scrapedTradeRecord now member q] }

/-- Normalization of one scraped record, `RealDataScraper._save_trade`
(`real_data_scraper.py` lines 152-195): resolve or create the member,
then insert the trade with the defaulted transaction date. -/
def scraperSaveTrade (now : Int) (store : Store) (q : RawScrapedTrade) : Store :=
  match resolveScraperMember store.members q.member_name with
  | some m => scraperTradeAppend now store m q
  | none =>
    scraperTradeAppend now
      { store with members := store.members ++ [newHouseMember store.members q.member_name] }
      (newHouseMember store.members q.member_name) q

/-- Steps of the collection orchestrator, in the vocabulary of the spec:
`structuredFeed` is `collect_senate_stock_data` (Senate Stock Watcher),
`houseSources` is `collect_house_trading_data` (the two placeholder
House collectors), `authenticatedApi` is `collect_propublica_data`, and
`freeTextScrape` is `scrape_real_data` (the HTML disclosure scraper). -/
inductive CollectStep where
  | structuredFeed
  | houseSources
  | authenticatedApi
  | freeTextScrape
  deriving DecidableEq, BEq

/-- Execution order of `collect_congress_data` (`data_collector.py`
lines 395-421), as the sequence of collector steps it runs: the
ProPublica step runs only under `if propublica_api_key:` (Python
truthiness, so an empty-string credential is also skipped), and the
free-text scraper runs after it. -/
def collectCongressData (apiKey : Option String) : List CollectStep :=
  [CollectStep.structuredFeed, CollectStep.houseSources] ++
    (match apiKey with
     | some k => if k = "" then [] else [CollectStep.authenticatedApi]
     | none => []) ++
    [CollectStep.freeTextScrape]

/-- Client-visible error outcomes of the HTTP layer: `validationFailed`
models the framework's 422 on a `Query(..., ge=..., le=...)` constraint
violation, `badRequest` the explicit `HTTPException(status_code=400)`
(whose source detail text reads: Chamber must be House or Senate, with
the two nouns quoted), `notFound` the 404. -/
inductive ApiError where
  | validationFailed
  | badRequest (detail : String)
  | notFound (detail : String)
  deriving DecidableEq

/-- Python truthiness of an optional int parameter (`if member_id:`):
false for `None` and for `0`. -/
def optIntTruthy : Option Int → Bool
  | none => false
  | some v => !(v == 0)

/-- Python truthiness of an optional string parameter: false for `None`
and for the empty string. -/
def optStrTruthy : Option String → Bool
  | none => false
  | some s => !(s == "")

/-- Python truthiness of an optional float parameter (`if min_amount:`):
false for `None` and for `0.0`. -/
def optRatTruthy : Option ℚ → Bool
  | none => false
  | some v => !(v == 0)

/-- SQL three-valued `column >= v` on a nullable column: NULL never
satisfies the comparison. -/
def nullableGe (x : Option ℚ) (v : ℚ) : Bool :=
  match x with
  | none => false
  | some a => decide (v ≤ a)

/-- SQL three-valued `column <= v` on a nullable column. -/
def nullableLe (x : Option ℚ) (v : ℚ) : Bool :=
  match x with
  | none => false
  | some a => decide (a ≤ v)

/-- Conditional filter application: each `if <param>:` guard in the
router body. -/
def filterIf {α : Type} (cond : Bool) (p : α → Bool) (rows : List α) : List α :=
  if cond then rows.filter p else rows

/-- Rows of `db.query(Trade).join(Member)`: each trade paired with its
member row (inner join on the foreign key). -/
def joinedRows (store : Store) : List (Trade × Member) :=
  store.trades.filterMap
    (fun t => (store.members.find? (fun m => m.id == t.memberId)).map (fun m => (t, m)))

/-- Filter pipeline of `get_trades` (`routers/trades.py` lines 35-63),
innermost first, in source order: `member_id`, `chamber`, `party`,
`ticker` (case-insensitive containment), `transaction_type`,
`start_date`, `end_date` (datetime parameters are truthy whenever
present), `min_amount` and `max_amount` (each an OR of the exact field
and the corresponding range field clearing the threshold). -/
def applyTradeFilters (mid : Option Int) (chamber party ticker ttype : Option String)
    (sd ed : Option Int) (mnA mxA : Option ℚ) (rows : List (Trade × Member)) :
    List (Trade × Member) :=
  filterIf (optRatTruthy mxA)
    (fun pr => nullableLe pr.1.amountExact (mxA.getD 0) || nullableLe pr.1.amountMax (mxA.getD 0))
  (filterIf (optRatTruthy mnA)
    (fun pr => nullableGe pr.1.amountExact (mnA.getD 0) || nullableGe pr.1.amountMin (mnA.getD 0))
  (filterIf ed.isSome (fun pr => decide (pr.1.transactionDate ≤ ed.getD 0))
  (filterIf sd.isSome (fun pr => decide (sd.getD 0 ≤ pr.1.transactionDate))
  (filterIf (optStrTruthy ttype) (fun pr => pr.1.transactionType == ttype.getD "")
  (filterIf (optStrTruthy ticker) (fun pr => ilikeContains pr.1.ticker (ticker.getD ""))
  (filterIf (optStrTruthy party) (fun pr => pr.2.party == party.getD "")
  (filterIf (optStrTruthy chamber) (fun pr => pr.2.chamber == chamber.getD "")
  (filterIf (optIntTruthy mid) (fun pr => (pr.1.memberId : Int) == mid.getD 0)
  rows))))))))

/-- Sort key of `order_by(Trade.transaction_date.desc())`. -/
def dateDescOrder (a b : Trade × Member) : Prop :=
  b.1.transactionDate ≤ a.1.transactionDate

instance dateDescOrderDec : DecidableRel dateDescOrder :=
  fun _ _ => Int.decLe _ _

/-- Sort key of `order_by(Member.name)`. -/
def nameAscOrder (a b : Member) : Prop := a.name ≤ b.name

instance nameAscOrderDec : DecidableRel nameAscOrder :=
  fun a b => inferInstanceAs (Decidable (a.name ≤ b.name))

/-- Sort key of `order_by(Committee.name)`. -/
def committeeNameOrder (a b : Committee) : Prop := a.name ≤ b.name

instance committeeNameOrderDec : DecidableRel committeeNameOrder :=
  fun a b => inferInstanceAs (Decidable (a.name ≤ b.name))

/-- Handler `get_trades` (`routers/trades.py` lines 15-68): the
framework rejects `skip < 0`, `limit < 1` or `limit > 1000` before the
body runs; otherwise the joined rows are filtered, sorted by transaction
date descending (stable), paginated with `offset(skip).limit(limit)`,
and the trade rows returned. -/
def getTrades (store : Store) (skip limit : Int) (mid : Option Int)
    (chamber party ticker ttype : Option String) (sd ed : Option Int)
    (mnA mxA : Option ℚ) : Except ApiError (List Trade) :=
  if skip < 0 ∨ limit < 1 ∨ 1000 < limit then Except.error ApiError.validationFailed
  else
    Except.ok
      ((((List.insertionSort dateDescOrder
            (applyTradeFilters mid chamber party ticker ttype sd ed mnA mxA
              (joinedRows store))).drop skip.toNat).take limit.toNat).map Prod.fst)

/-- Existence of a trade for a member: `Member.trades.any()`. -/
def memberHasTrades (store : Store) (m : Member) : Bool :=
  store.trades.any (fun t => t.memberId == m.id)

/-- Handler `get_members` (`routers/members.py` lines 14-45): optional
`chamber`, `party`, `state` equality filters (string truthiness),
`has_trades` tested against `None` explicitly, then name-ascending order
and pagination. -/
def getMembers (store : Store) (skip limit : Int)
    (chamber party state : Option String) (hasTrades : Option Bool) :
    Except ApiError (List Member) :=
  if skip < 0 ∨ limit < 1 ∨ 1000 < limit then Except.error ApiError.validationFailed
  else
    Except.ok
      (((List.insertionSort nameAscOrder
          (filterIf hasTrades.isSome
            (fun m => (memberHasTrades store m) == hasTrades.getD true)
          (filterIf (optStrTruthy state) (fun m => m.state == state.getD "")
          (filterIf (optStrTruthy party) (fun m => m.party == party.getD "")
          (filterIf (optStrTruthy chamber) (fun m => m.chamber == chamber.getD "")
          store.members))))).drop skip.toNat).take limit.toNat)

/-- Handler `get_committees` (`routers/committees.py` lines 13-35):
optional `chamber` equality filter (string truthiness) and
`subcommittee` flag tested against `None` explicitly, then name order
and pagination. -/
def getCommittees (store : Store) (skip limit : Int)
    (chamber : Option String) (sub : Option Bool) :
    Except ApiError (List Committee) :=
  if skip < 0 ∨ limit < 1 ∨ 1000 < limit then Except.error ApiError.validationFailed
  else
    Except.ok
      (((List.insertionSort committeeNameOrder
          (filterIf sub.isSome (fun c => c.subcommittee == sub.getD true)
          (filterIf (optStrTruthy chamber) (fun c => c.chamber == chamber.getD "")
          store.committees))).drop skip.toNat).take limit.toNat)

/-- Handler `get_members_by_chamber` (`routers/members.py` lines 47-64):
after framework validation, `chamber.lower() not in ['house', 'senate']`
raises the 400 before any query runs; otherwise members of
`chamber.title()` are listed by name. -/
def getMembersByChamber (store : Store) (chamber : String) (skip limit : Int) :
    Except ApiError (List Member) :=
  if skip < 0 ∨ limit < 1 ∨ 1000 < limit then Except.error ApiError.validationFailed
  else if pyLower chamber = "house" ∨ pyLower chamber = "senate" then
    Except.ok
      (((List.insertionSort nameAscOrder
          (store.members.filter (fun m => m.chamber == pyTitle chamber))).drop
          skip.toNat).take limit.toNat)
  else Except.error (ApiError.badRequest "Chamber must be House or Senate")

/-- Response shape of `GET /api/trades/stats` (`schemas.DashboardStats`);
the two grouped counts are JSON objects, modelled as association lists. -/
structure DashboardStats where
  total_trades : Nat
  total_members : Nat
  total_committees : Nat
  recent_trades_count : Nat
  top_traded_stocks : List (String × Nat)
  trades_by_chamber : List (String × Nat)
  trades_by_party : List (String × Nat)
  deriving DecidableEq

/-- Per-ticker trade counts, `GROUP BY Trade.ticker` with
`COUNT(Trade.id)`: one row per distinct ticker. -/
def tickerCounts (store : Store) : List (String × Nat) :=
  ((store.trades.map (fun t => t.ticker)).dedup).map
    (fun tk => (tk, store.trades.countP (fun t => t.ticker == tk)))

/-- Modelled from the spec: the sort key behind
`order_by(func.count(Trade.id).desc())` on the ticker groups.  The SQL
in `get_trading_stats` names no secondary sort key, and the database
engine configuration (`database.py`) is not among the sources, so the
order among equal counts is fixed here from the spec's words: count
descending, ties broken by ticker lexical order. -/
def statOrder (a b : String × Nat) : Prop :=
  b.2 < a.2 ∨ (a.2 = b.2 ∧ a.1 ≤ b.1)

instance statOrderDec : DecidableRel statOrder := fun _ _ => by
  unfold statOrder
  infer_instance

instance statOrderTotal : IsTotal (String × Nat) statOrder := by
  constructor
  intro a b
  rcases Nat.lt_trichotomy a.2 b.2 with h | h | h
  · exact Or.inr (Or.inl h)
  · rcases le_total a.1 b.1 with hs | hs
    · exact Or.inl (Or.inr ⟨h, hs⟩)
    · exact Or.inr (Or.inr ⟨h.symm, hs⟩)
  · exact Or.inl (Or.inl h)

instance statOrderTrans : IsTrans (String × Nat) statOrder := by
  constructor
  intro a b c hab hbc
  rcases hab with h1 | ⟨h1, h2⟩ <;> rcases hbc with h3 | ⟨h3, h4⟩
  · exact Or.inl (lt_trans h3 h1)
  · exact Or.inl (h3 ▸ h1)
  · exact Or.inl (h1 ▸ h3)
  · exact Or.inr ⟨h1.trans h3, h2.trans h4⟩

/-- The `top_traded_stocks` block: the ordered ticker groups, truncated
by `limit(10)`. -/
def topTradedStocks (store : Store) : List (String × Nat) :=
  (List.insertionSort statOrder (tickerCounts store)).take 10

/-- The `trades_by_chamber` block: member-joined trades grouped by the
member's chamber. -/
def tradesByChamber (store : Store) : List (String × Nat) :=
  (((joinedRows store).map (fun pr => pr.2.chamber)).dedup).map
    (fun c => (c, (joinedRows store).countP (fun pr => pr.2.chamber == c)))

/-- The `trades_by_party` block. -/
def tradesByParty (store : Store) : List (String × Nat) :=
  (((joinedRows store).map (fun pr => pr.2.party)).dedup).map
    (fun p => (p, (joinedRows store).countP (fun pr => pr.2.party == p)))

/-- Handler `get_trading_stats` (`routers/trades.py` lines 119-182):
total counts, the 30-day recency count against `now`, the top-ticker
block, and the two grouped counts; `total_committees` is the literal 0
of the source. -/
def getTradingStats (now : Int) (store : Store) : DashboardStats :=
  { total_trades := store.trades.length
    total_members := store.members.length
    total_committees := 0
    recent_trades_count := store.trades.countP (fun t => decide (now - 30 ≤ t.transactionDate))
    top_traded_stocks := topTradedStocks store
    trades_by_chamber := tradesByChamber store
    trades_by_party := tradesByParty store }

/-- Python runtime error relevant to the generator body: integer
division by zero. -/
inductive PyError where
  | zeroDivision
  deriving DecidableEq

/-- Banker's rounding to four decimal places, the idealization of
Python `round(x, 4)` on exact rationals: the scaled value is rounded to
the nearest integer, halves to the even neighbour. -/
def pyRound4 (q : ℚ) : ℚ :=
  let x : ℚ := mkRat (q.num * 10000) q.den
  let f : Int := Int.fdiv x.num x.den
  let rem : Int := x.num - f * x.den
  let n : Int :=
    if 2 * rem < (x.den : Int) then f
    else if (x.den : Int) < 2 * rem then f + 1
    else if f % 2 = 0 then f else f + 1
  mkRat n 10000

/-- The random draws consumed by one iteration of the (disabled) loop in
`CongressDataCollector._add_realistic_trading_data`: the chosen member
and ticker, the transaction kind, `random.randint(1, 365)` days ago,
`random.randint(1000, 100000)` for the amount and the exchange
counter-amount, the counter-ticker and reason choices, the
`random.randint(0, 50000)` spread and the `random.randint(1, 45)` filing
delay. -/
structure RealisticDraw where
  memberId : Nat
  ticker : String
  transactionType : String
  daysAgo : Int
  amountMinDraw : Int
  exchangeFromTickerDraw : String
  exchangeFromAmountDraw : Int
  exchangeReasonDraw : String
  amountSpreadDraw : Int
  filingDelayDraw : Int
  deriving DecidableEq

/-- The ticker-to-company dictionary of the generator body; `.get` with
default `f"{ticker} Corporation"`. -/
def realisticCompanies : List (String × String) :=
  [("AAPL", "Apple Inc."), ("MSFT", "Microsoft Corporation"), ("GOOGL", "Alphabet Inc."),
   ("AMZN", "Amazon.com Inc."), ("TSLA", "Tesla Inc."), ("NVDA", "NVIDIA Corporation"),
   ("META", "Meta Platforms Inc."), ("NFLX", "Netflix Inc."), ("DIS", "Walt Disney Company"),
   ("V", "Visa Inc."), ("MA", "Mastercard Inc."), ("JPM", "JPMorgan Chase & Co."),
   ("BAC", "Bank of America Corp."), ("WFC", "Wells Fargo & Company"),
   ("GS", "Goldman Sachs Group Inc."), ("JNJ", "Johnson & Johnson"), ("PFE", "Pfizer Inc."),
   ("UNH", "UnitedHealth Group Inc."), ("HD", "Home Depot Inc."),
   ("PG", "Procter & Gamble Co."), ("KO", "Coca-Cola Company"), ("PEP", "PepsiCo Inc."),
   ("WMT", "Walmart Inc."), ("TGT", "Target Corporation"),
   ("COST", "Costco Wholesale Corporation"), ("SBUX", "Starbucks Corporation"),
   ("NKE", "Nike Inc."), ("ADBE", "Adobe Inc."), ("CRM", "Salesforce Inc."),
   ("ORCL", "Oracle Corporation"), ("INTC", "Intel Corporation"),
   ("AMD", "Advanced Micro Devices Inc."), ("QCOM", "QUALCOMM Incorporated"),
   ("AVGO", "Broadcom Inc.")]

/-- Dictionary lookup `companies.get(ticker, f"{ticker} Corporation")`. -/
def companiesGet (tk : String) : String :=
  match realisticCompanies.find? (fun p => p.1 == tk) with
  | some p => p.2
  | none => tk ++ " Corporation"

/-- The Trade object constructed by one iteration of the generator body,
given the draws; `isEx` records whether the exchange branch ran. -/
def realisticTradeRecord (now : Int) (d : RealisticDraw) (isEx : Bool) : Trade :=
  { memberId := d.memberId
    ticker := d.ticker
    companyName := companiesGet d.ticker
    transactionType := d.transactionType
    transactionDate := now - d.daysAgo
    amountMin := some ((d.amountMinDraw : ℚ))
    amountMax := some ((d.amountMinDraw : ℚ) + (d.amountSpreadDraw : ℚ))
    amountExact := none
    exchangeFromTicker := if isEx then some d.exchangeFromTickerDraw else none
    exchangeFromCompany := if isEx then some (d.exchangeFromTickerDraw ++ " Company") else none
    exchangeFromAmount := if isEx then some ((d.exchangeFromAmountDraw : ℚ)) else none
    exchangeRatioValue :=
      if isEx then some (pyRound4 ((d.amountMinDraw : ℚ) / (d.exchangeFromAmountDraw : ℚ)))
      else none
    exchangeReason := if isEx then some d.exchangeReasonDraw else none
    description :=
      "Periodic Transaction Report - " ++ d.transactionType ++ " " ++ d.ticker ++
        (if isEx && !(d.exchangeFromTickerDraw == "") then " FROM " ++ d.exchangeFromTickerDraw
         else "")
    source := "Real Data Collection"
    filingDate := some (now - d.daysAgo + d.filingDelayDraw) }

/-- One iteration of the loop body of `_add_realistic_trading_data`
(`data_collector.py` lines 218-279), as a function of the random draws.
When the kind is `"Exchange"`, `exchange_ratio` is computed as
`round(amount_min / exchange_from_amount, 4)` with no zero guard: a zero
counter-amount raises `ZeroDivisionError`; the generator's
`random.randint(1000, 100000)` never draws zero.  Exchange-specific
fields are populated only in that branch. -/
def buildRealisticTrade (now : Int) (d : RealisticDraw) : Except PyError Trade :=
  if d.transactionType = "Exchange" then
    if d.exchangeFromAmountDraw = 0 then Except.error PyError.zeroDivision
    else Except.ok (realisticTradeRecord now d true)
  else Except.ok (realisticTradeRecord now d false)

/-- The method `_add_realistic_trading_data` as it actually executes
(`data_collector.py` lines 181-189): it logs and returns before the
generator body, leaving the store untouched. -/
def addRealisticTradingData (store : Store) : Store := store

/-- Concrete raw Senate record with a well-formed transaction date. -/
def c8GoodRec : RawSenateRecord :=
  { senator := "Jane Doe", ticker := "AAPL", asset_description := "Apple Inc.",
    txnType := "Buy", transaction_date := "2023-01-15", amount_min := "1000",
    amount_max := "5000", description := "PTR", filing_date := "",
    state := "CA", party := "D" }

/-- Concrete raw Senate record whose transaction date cannot parse. -/
def c8BadRec : RawSenateRecord :=
  { senator := "John Roe", ticker := "MSFT", asset_description := "Microsoft Corporation",
    txnType := "Sell", transaction_date := "not-a-date", amount_min := "1000",
    amount_max := "5000", description := "PTR", filing_date := "",
    state := "TX", party := "R" }

/-- Second well-formed record for the batch-isolation witness. -/
def c8GoodRec2 : RawSenateRecord :=
  { senator := "Ann Poe", ticker := "NVDA", asset_description := "NVIDIA Corporation",
    txnType := "Buy", transaction_date := "2023-02-20", amount_min := "2000",
    amount_max := "3000", description := "PTR", filing_date := "2023-02-25",
    state := "WA", party := "D" }

/-- Concrete raw Senate record with an unparsable date for C1. -/
def c1BadRec : RawSenateRecord :=
  { senator := "Jane Doe", ticker := "AAPL", asset_description := "Apple Inc.",
    txnType := "Buy", transaction_date := "", amount_min := "1000",
    amount_max := "5000", description := "PTR", filing_date := "",
    state := "CA", party := "D" }

/-- Concrete scraped record — the shape carries no transaction date. -/
def c1ScrapedRec : RawScrapedTrade :=
  { member_name := "Jane Doe", ticker := "AAPL", transaction_type := "Buy",
    amount := "$1000" }

/-- Concrete scraped record whose amount string is garbage. -/
def c2GarbageRec : RawScrapedTrade :=
  { member_name := "Jane Doe", ticker := "AAPL", transaction_type := "Buy",
    amount := "N/A" }

/-- Concrete raw Senate record for the C3 witness. -/
def c3Rec : RawSenateRecord :=
  { senator := "Jane Doe", ticker := "AAPL", asset_description := "Apple Inc.",
    txnType := "Buy", transaction_date := "2023-01-15", amount_min := "1000",
    amount_max := "5000", description := "PTR", filing_date := "",
    state := "CA", party := "D" }

/-- Concrete scraped record for the C3 witness. -/
def c3ScrapedRec : RawScrapedTrade :=
  { member_name := "Bob Moe", ticker := "TSLA", transaction_type := "Sell",
    amount := "1,000-5,000" }

/-- A one-member store, used to show store-independence of rejections. -/
def storeOneMember : Store :=
  { members := [{ id := 0, name := "Jane Doe", chamber := "Senate", state := "CA", party := "D" }],
    trades := [], committees := [] }

/-- Exchange draw with a zero counter-amount (outside the reachable
range of `random.randint(1000, 100000)`). -/
def c9ZeroDraw : RealisticDraw :=
  { memberId := 1, ticker := "AAPL", transactionType := "Exchange", daysAgo := 10,
    amountMinDraw := 5000, exchangeFromTickerDraw := "MSFT", exchangeFromAmountDraw := 0,
    exchangeReasonDraw := "Portfolio rebalancing", amountSpreadDraw := 100,
    filingDelayDraw := 5 }

/-- Exchange draw inside the generator's reachable range. -/
def c9GoodDraw : RealisticDraw :=
  { memberId := 1, ticker := "AAPL", transactionType := "Exchange", daysAgo := 10,
    amountMinDraw := 5000, exchangeFromTickerDraw := "MSFT", exchangeFromAmountDraw := 2000,
    exchangeReasonDraw := "Portfolio rebalancing", amountSpreadDraw := 100,
    filingDelayDraw := 5 }

lemma ilikeContains_self (s : String) : ilikeContains s s = true := by
  simp [ilikeContains]

lemma senateNameMatch_new (store : Store) (r : RawSenateRecord) :
    senateNameMatch r.senator (newSenateMember store r) = true := by
  simp [senateNameMatch, newSenateMember, ilikeContains_self]

lemma resolveSenator_append_of_none {ms : List Member} {name : String}
    (h : resolveSenator ms name = none) (ms2 : List Member) :
    resolveSenator (ms ++ ms2) name = resolveSenator ms2 name := by
  unfold resolveSenator at h ⊢
  rw [List.find?_append, h, Option.none_or]

lemma saveSenateTradeRow_members (store : Store) (m : Member) (r : RawSenateRecord) :
    (saveSenateTradeRow store m r).members = store.members := by
  unfold saveSenateTradeRow
  split
  · rfl
  · split
    · rfl
    · rfl

lemma saveSenateTradeRow_of_dateFail {r : RawSenateRecord}
    (h : senateDate? r.transaction_date = none) (store : Store) (m : Member) :
    saveSenateTradeRow store m r = store := by
  unfold saveSenateTradeRow
  rw [h]

lemma saveSenateTrade_members_of_empty {r : RawSenateRecord} (h : r.senator = "")
    (store : Store) : (saveSenateTrade store r).members = store.members := by
  unfold saveSenateTrade
  rw [if_pos h]

lemma saveSenateTrade_members_of_found {store : Store} {r : RawSenateRecord} {m : Member}
    (h0 : ¬ r.senator = "") (h : resolveSenator store.members r.senator = some m) :
    (saveSenateTrade store r).members = store.members := by
  unfold saveSenateTrade
  rw [if_neg h0, h]
  exact saveSenateTradeRow_members store m r

lemma saveSenateTrade_members_of_new {store : Store} {r : RawSenateRecord}
    (h0 : ¬ r.senator = "") (h : resolveSenator store.members r.senator = none) :
    (saveSenateTrade store r).members = store.members ++ [newSenateMember store r] := by
  unfold saveSenateTrade
  rw [if_neg h0, h]
  exact saveSenateTradeRow_members _ (newSenateMember store r) r

lemma saveSenateTrade_trades_of_dateFail {r : RawSenateRecord}
    (h : senateDate? r.transaction_date = none) (store : Store) :
    (saveSenateTrade store r).trades = store.trades := by
  unfold saveSenateTrade
  split
  · rfl
  · split
    · rw [saveSenateTradeRow_of_dateFail h]
    · rw [saveSenateTradeRow_of_dateFail h]

lemma resolveSenator_after_new {store : Store} {r : RawSenateRecord}
    (h0 : ¬ r.senator = "") (h : resolveSenator store.members r.senator = none) :
    resolveSenator (saveSenateTrade store r).members r.senator =
      some (newSenateMember store r) := by
  rw [saveSenateTrade_members_of_new h0 h, resolveSenator_append_of_none h]
  unfold resolveSenator
  exact List.find?_cons_of_pos _ (senateNameMatch_new store r)

lemma saveSenateTrade_members_idem (store : Store) (r r2 : RawSenateRecord)
    (hsen : r2.senator = r.senator) :
    (saveSenateTrade (saveSenateTrade store r) r2).members =
      (saveSenateTrade store r).members := by
  by_cases h0 : r.senator = ""
  · have h2 : r2.senator = "" := by rw [hsen, h0]
    exact saveSenateTrade_members_of_empty h2 _
  · have h2 : ¬ r2.senator = "" := by rw [hsen]; exact h0
    rcases hres : resolveSenator store.members r.senator with _ | m
    · have hm2 : resolveSenator (saveSenateTrade store r).members r2.senator =
          some (newSenateMember store r) := by
        rw [hsen]; exact resolveSenator_after_new h0 hres
      exact saveSenateTrade_members_of_found h2 hm2
    · have hm1 := saveSenateTrade_members_of_found h0 hres
      have hm2 : resolveSenator (saveSenateTrade store r).members r2.senator = some m := by
        rw [hsen, hm1]; exact hres
      exact saveSenateTrade_members_of_found h2 hm2

lemma scraperSaveTrade_members_of_found {s : Store} {q : RawScrapedTrade} {m : Member}
    (now : Int) (h : resolveScraperMember s.members q.member_name = some m) :
    (scraperSaveTrade now s q).members = s.members := by
  unfold scraperSaveTrade
  rw [h]
  rfl

lemma scraperSaveTrade_members_of_new {s : Store} {q : RawScrapedTrade}
    (now : Int) (h : resolveScraperMember s.members q.member_name = none) :
    (scraperSaveTrade now s q).members =
      s.members ++ [newHouseMember s.members q.member_name] := by
  unfold scraperSaveTrade
  rw [h]
  rfl

lemma resolveScraper_append_of_none {ms : List Member} {name : String}
    (h : resolveScraperMember ms name = none) (ms2 : List Member) :
    resolveScraperMember (ms ++ ms2) name = resolveScraperMember ms2 name := by
  unfold resolveScraperMember at h ⊢
  rw [List.find?_append, h, Option.none_or]

lemma scraperSaveTrade_members_idem (now now2 : Int) (s : Store) (q q2 : RawScrapedTrade)
    (h : q2.member_name = q.member_name) :
    (scraperSaveTrade now2 (scraperSaveTrade now s q) q2).members =
      (scraperSaveTrade now s q).members := by
  rcases hres : resolveScraperMember s.members q.member_name with _ | m
  · have hm2 : resolveScraperMember (scraperSaveTrade now s q).members q2.member_name =
        some (newHouseMember s.members q.member_name) := by
      rw [h, scraperSaveTrade_members_of_new now hres, resolveScraper_append_of_none hres]
      unfold resolveScraperMember
      exact List.find?_cons_of_pos _ (ilikeContains_self q.member_name)
    exact scraperSaveTrade_members_of_found now2 hm2
  · have hm2 : resolveScraperMember (scraperSaveTrade now s q).members q2.member_name =
        some m := by
      rw [h, scraperSaveTrade_members_of_found now hres]; exact hres
    exact scraperSaveTrade_members_of_found now2 hm2

lemma scraperSaveTrade_trades (now : Int) (s : Store) (q : RawScrapedTrade) :
    ∃ member, (scraperSaveTrade now s q).trades =
      s.trades ++ [scrapedTradeRecord now member q] := by
  unfold scraperSaveTrade
  rcases resolveScraperMember s.members q.member_name with _ | m
  · exact ⟨newHouseMember s.members q.member_name, rfl⟩
  · exact ⟨m, rfl⟩

lemma optIntTruthy_zero : optIntTruthy (some 0) = false := rfl

lemma optIntTruthy_none : optIntTruthy none = false := rfl

lemma optRatTruthy_zero : optRatTruthy (some 0) = false := by
  simp [optRatTruthy]

lemma optRatTruthy_none : optRatTruthy none = false := rfl

lemma filterIf_false {α : Type} (p : α → Bool) (rows : List α) :
    filterIf false p rows = rows := rfl

/-- C1 counterexample: the free-text scraper path stores a Trade row for
a raw record whose transaction-date field is absent (the scraped record
shape has no such field), substituting the default date of 30 days
before collection time — so, as stated over every normalization path,
the claim is false at this input. -/
theorem C1_counterexample_scraper_default_date :
    (scraperSaveTrade 0 emptyStore c1ScrapedRec).trades.map (fun t => t.transactionDate) =
      [-30] ∧
    (scraperSaveTrade 0 emptyStore c1ScrapedRec).trades.length = 1 :=
  ⟨by decide, by decide⟩

/-- C1 (amended): in the structured Senate-feed normalizer a record
whose transaction date is absent or unparsable is rejected — no Trade
row is stored and the trade count does not increase, and no default is
substituted; the free-text scraper path, whose raw records carry no
transaction date, instead always stores the trade with the date
defaulted to 30 days before collection time. -/
theorem C1_amended_date_policy :
    (∀ (store : Store) (r : RawSenateRecord), senateDate? r.transaction_date = none →
      (saveSenateTrade store r).trades = store.trades) ∧
    (∀ (now : Int) (store : Store) (q : RawScrapedTrade),
      ∃ t, (scraperSaveTrade now store q).trades = store.trades ++ [t] ∧
        t.transactionDate = now - 30) := by
  constructor
  · intro store r h
    exact saveSenateTrade_trades_of_dateFail h store
  · intro now store q
    obtain ⟨member, hm⟩ := scraperSaveTrade_trades now store q
    exact ⟨scrapedTradeRecord now member q, hm, rfl⟩

/-- Witness for C1 at concrete inputs: an empty transaction date is
rejected by the Senate path, and the scraper path stores with the
default date. -/
theorem C1_amended_witness :
    (saveSenateTrade emptyStore c1BadRec).trades = emptyStore.trades ∧
    (∃ t, (scraperSaveTrade 0 emptyStore c1ScrapedRec).trades = emptyStore.trades ++ [t] ∧
      t.transactionDate = 0 - 30) :=
  ⟨C1_amended_date_policy.1 emptyStore c1BadRec (by decide),
   C1_amended_date_policy.2 0 emptyStore c1ScrapedRec⟩

/-- C2 counterexample: the scraper's amount parser maps a garbage string
to `(0, 0)` and the stored trade carries `amount_min = amount_max = 0`,
not unset fields — so the claim that any unparsable amount yields both
fields `None` is false at this input. -/
theorem C2_counterexample_garbage_amount :
    scraperParseAmount "N/A" = (0, 0) ∧
    (scraperSaveTrade 0 emptyStore c2GarbageRec).trades.map
        (fun t => (t.amountMin, t.amountMax)) = [(some 0, some 0)] ∧
    (some (0 : ℚ) ≠ (none : Option ℚ)) :=
  ⟨by decide, by decide, by decide⟩

/-- C2 (amended): a range string `"1,000-5,000"` parses to
`(1000, 5000)` and a bare `"$2500"` to `(2500, 2500)` in the scraper's
parser, and `"$2500"` to `2500` in the structured collector's per-field
parser; an unparsable string yields `None` in the structured collector's
parser but `(0, 0)` — stored as zeros, not as unset fields — in the
scraper's parser.  Neither parser can raise: both are total functions
(each exception branch of the source returns a value). -/
theorem C2_amended_amount_parsing :
    scraperParseAmount "1,000-5,000" = (1000, 5000) ∧
    scraperParseAmount "$2500" = (2500, 2500) ∧
    dcParseAmount "$2500" = some 2500 ∧
    dcParseAmount "N/A" = none ∧
    dcParseAmount "" = none ∧
    scraperParseAmount "N/A" = (0, 0) :=
  ⟨by decide, by decide, by decide, by decide, by decide, by decide⟩

/-- C3: normalizing two raw records with identical subject name (and,
on the Senate path, identical chamber) never creates a second
Legislator: the second pass leaves the member table exactly as the first
left it, the table grows by at most one row over the two passes, and
when the first record created a member, the second record's resolution
finds precisely that member; the scraper path (name-only resolution)
satisfies the same idempotence. -/
theorem C3_legislator_resolution_idempotent (store : Store) (r r2 : RawSenateRecord)
    (hsen : r2.senator = r.senator) :
    (saveSenateTrade (saveSenateTrade store r) r2).members =
      (saveSenateTrade store r).members ∧
    (saveSenateTrade (saveSenateTrade store r) r2).members.length ≤
      store.members.length + 1 ∧
    (¬ r.senator = "" → resolveSenator store.members r.senator = none →
      resolveSenator (saveSenateTrade store r).members r2.senator =
        some (newSenateMember store r)) ∧
    (∀ (now now2 : Int) (s : Store) (q q2 : RawScrapedTrade), q2.member_name = q.member_name →
      (scraperSaveTrade now2 (scraperSaveTrade now s q) q2).members =
        (scraperSaveTrade now s q).members) := by
  refine ⟨saveSenateTrade_members_idem store r r2 hsen, ?_, ?_, ?_⟩
  · rw [saveSenateTrade_members_idem store r r2 hsen]
    by_cases h0 : r.senator = ""
    · rw [saveSenateTrade_members_of_empty h0]
      omega
    · rcases hres : resolveSenator store.members r.senator with _ | m
      · rw [saveSenateTrade_members_of_new h0 hres]
        simp
      · rw [saveSenateTrade_members_of_found h0 hres]
        omega
  · intro h0 hres
    rw [hsen]
    exact resolveSenator_after_new h0 hres
  · intro now now2 s q q2 hq
    exact scraperSaveTrade_members_idem now now2 s q q2 hq

/-- Witness for C3 at concrete inputs: processing the same Senate record
twice from the empty store leaves the member table of the first pass
unchanged, and the second resolution finds the created member; same for
the scraper path. -/
theorem C3_witness :
    (saveSenateTrade (saveSenateTrade emptyStore c3Rec) c3Rec).members =
      (saveSenateTrade emptyStore c3Rec).members ∧
    resolveSenator (saveSenateTrade emptyStore c3Rec).members c3Rec.senator =
      some (newSenateMember emptyStore c3Rec) ∧
    (scraperSaveTrade 1 (scraperSaveTrade 0 emptyStore c3ScrapedRec) c3ScrapedRec).members =
      (scraperSaveTrade 0 emptyStore c3ScrapedRec).members :=
  ⟨(C3_legislator_resolution_idempotent emptyStore c3Rec c3Rec rfl).1,
   (C3_legislator_resolution_idempotent emptyStore c3Rec c3Rec rfl).2.2.1 (by decide) (by decide),
   (C3_legislator_resolution_idempotent emptyStore c3Rec c3Rec rfl).2.2.2 0 1 emptyStore
     c3ScrapedRec c3ScrapedRec rfl⟩

/-- C4 counterexample: with a credential supplied, the orchestrator runs
the authenticated API collector before the free-text disclosure scraper,
so the claimed order (free-text sources before the authenticated API) is
false at this input. -/
theorem C4_counterexample_collector_order :
    collectCongressData (some "key") =
      [CollectStep.structuredFeed, CollectStep.houseSources, CollectStep.authenticatedApi,
       CollectStep.freeTextScrape] ∧
    List.indexOf CollectStep.authenticatedApi (collectCongressData (some "key")) <
      List.indexOf CollectStep.freeTextScrape (collectCongressData (some "key")) :=
  ⟨by decide, by decide⟩

/-- C4 (amended): the orchestrator runs sequentially in the fixed order
structured feed, placeholder House collectors, authenticated API
collector (only when a non-empty credential is supplied), and then the
free-text disclosure scraper; with no credential — or an empty-string
credential, by Python truthiness — the authenticated collector is
skipped as a no-op and the run still completes. -/
theorem C4_amended_collector_order (k : String) :
    (¬ k = "" → collectCongressData (some k) =
      [CollectStep.structuredFeed, CollectStep.houseSources, CollectStep.authenticatedApi,
       CollectStep.freeTextScrape]) ∧
    collectCongressData none =
      [CollectStep.structuredFeed, CollectStep.houseSources, CollectStep.freeTextScrape] ∧
    collectCongressData (some "") =
      [CollectStep.structuredFeed, CollectStep.houseSources, CollectStep.freeTextScrape] := by
  refine ⟨?_, rfl, rfl⟩
  intro h
  simp [collectCongressData, h]

/-- Witness for C4 at a concrete credential. -/
theorem C4_amended_witness :
    collectCongressData (some "key") =
      [CollectStep.structuredFeed, CollectStep.houseSources, CollectStep.authenticatedApi,
       CollectStep.freeTextScrape] ∧
    collectCongressData none =
      [CollectStep.structuredFeed, CollectStep.houseSources, CollectStep.freeTextScrape] :=
  ⟨(C4_amended_collector_order "key").1 (by decide), (C4_amended_collector_order "key").2.1⟩

/-- C5: for every request to the trades, members or committees listing
endpoint, an accepted request returns at most `limit` rows, and any
`limit` above the ceiling of 1000 is rejected with a validation error
rather than accepted. -/
theorem C5_limit_bounds :
    (∀ (store : Store) (skip limit : Int) (mid : Option Int)
        (chamber party ticker ttype : Option String) (sd ed : Option Int)
        (mnA mxA : Option ℚ) (l : List Trade),
        getTrades store skip limit mid chamber party ticker ttype sd ed mnA mxA =
          Except.ok l → (l.length : Int) ≤ limit) ∧
    (∀ (store : Store) (skip limit : Int) (mid : Option Int)
        (chamber party ticker ttype : Option String) (sd ed : Option Int)
        (mnA mxA : Option ℚ), 1000 < limit →
        getTrades store skip limit mid chamber party ticker ttype sd ed mnA mxA =
          Except.error ApiError.validationFailed) ∧
    (∀ (store : Store) (skip limit : Int) (chamber party state : Option String)
        (hasTrades : Option Bool) (l : List Member),
        getMembers store skip limit chamber party state hasTrades = Except.ok l →
        (l.length : Int) ≤ limit) ∧
    (∀ (store : Store) (skip limit : Int) (chamber party state : Option String)
        (hasTrades : Option Bool), 1000 < limit →
        getMembers store skip limit chamber party state hasTrades =
          Except.error ApiError.validationFailed) ∧
    (∀ (store : Store) (skip limit : Int) (chamber : Option String) (sub : Option Bool)
        (l : List Committee),
        getCommittees store skip limit chamber sub = Except.ok l →
        (l.length : Int) ≤ limit) ∧
    (∀ (store : Store) (skip limit : Int) (chamber : Option String) (sub : Option Bool),
        1000 < limit →
        getCommittees store skip limit chamber sub =
          Except.error ApiError.validationFailed) := by
  refine ⟨?_, ?_, ?_, ?_, ?_, ?_⟩
  · intro store skip limit mid chamber party ticker ttype sd ed mnA mxA l h
    unfold getTrades at h
    split at h
    · exact absurd h (by simp)
    · rename_i hcond
      have hx := Except.ok.inj h
      have hlen : l.length ≤ limit.toNat := by
        rw [← hx]
        simp only [List.length_map]
        rw [List.length_take]
        exact Nat.min_le_left _ _
      omega
  · intro store skip limit mid chamber party ticker ttype sd ed mnA mxA hlim
    unfold getTrades
    rw [if_pos (Or.inr (Or.inr hlim))]
  · intro store skip limit chamber party state hasTrades l h
    unfold getMembers at h
    split at h
    · exact absurd h (by simp)
    · rename_i hcond
      have hx := Except.ok.inj h
      have hlen : l.length ≤ limit.toNat := by
        rw [← hx]
        rw [List.length_take]
        exact Nat.min_le_left _ _
      omega
  · intro store skip limit chamber party state hasTrades hlim
    unfold getMembers
    rw [if_pos (Or.inr (Or.inr hlim))]
  · intro store skip limit chamber sub l h
    unfold getCommittees at h
    split at h
    · exact absurd h (by simp)
    · rename_i hcond
      have hx := Except.ok.inj h
      have hlen : l.length ≤ limit.toNat := by
        rw [← hx]
        rw [List.length_take]
        exact Nat.min_le_left _ _
      omega
  · intro store skip limit chamber sub hlim
    unfold getCommittees
    rw [if_pos (Or.inr (Or.inr hlim))]

/-- Witness for C5: an accepted request on the empty store returns no
more than the requested limit, and a limit of 2000 is rejected, on each
of the three endpoints. -/
theorem C5_witness :
    ((([] : List Trade).length : Int) ≤ 5) ∧
    getTrades emptyStore 0 2000 none none none none none none none none none =
      Except.error ApiError.validationFailed ∧
    ((([] : List Member).length : Int) ≤ 5) ∧
    getMembers emptyStore 0 2000 none none none none =
      Except.error ApiError.validationFailed ∧
    ((([] : List Committee).length : Int) ≤ 5) ∧
    getCommittees emptyStore 0 2000 none none = Except.error ApiError.validationFailed :=
  ⟨C5_limit_bounds.1 emptyStore 0 5 none none none none none none none none none [] (by rfl),
   C5_limit_bounds.2.1 emptyStore 0 2000 none none none none none none none none none
     (by decide),
   C5_limit_bounds.2.2.1 emptyStore 0 5 none none none none [] (by rfl),
   C5_limit_bounds.2.2.2.1 emptyStore 0 2000 none none none none (by decide),
   C5_limit_bounds.2.2.2.2.1 emptyStore 0 5 none none [] (by rfl),
   C5_limit_bounds.2.2.2.2.2 emptyStore 0 2000 none none (by decide)⟩

/-- C6: the aggregate-statistics block lists at most 10 top tickers,
ordered by trade count descending with ties broken by ticker lexical
order (see `statOrder` for the spec-modelled tie rule), and on the empty
store every count is zero and every aggregate list empty rather than an
error. -/
theorem C6_stats_top_tickers (now : Int) (store : Store) :
    (getTradingStats now store).top_traded_stocks.length ≤ 10 ∧
    List.Pairwise statOrder (getTradingStats now store).top_traded_stocks ∧
    getTradingStats now emptyStore =
      { total_trades := 0, total_members := 0, total_committees := 0,
        recent_trades_count := 0, top_traded_stocks := [], trades_by_chamber := [],
        trades_by_party := [] } := by
  refine ⟨?_, ?_, rfl⟩
  · show (topTradedStocks store).length ≤ 10
    unfold topTradedStocks
    rw [List.length_take]
    exact Nat.min_le_left _ _
  · show List.Pairwise statOrder (topTradedStocks store)
    have hs : List.Sorted statOrder (List.insertionSort statOrder (tickerCounts store)) :=
      List.sorted_insertionSort statOrder (tickerCounts store)
    exact List.Pairwise.sublist (List.take_sublist 10 _) hs

/-- C7: a by-chamber member lookup whose path parameter lower-cases to
neither `house` nor `senate` is answered with the invalid-argument (400)
error, and the answer does not depend on the store — no store query
takes part in producing it. -/
theorem C7_invalid_chamber_rejected (store store2 : Store) (chamber : String)
    (skip limit : Int) (hval : ¬ (skip < 0 ∨ limit < 1 ∨ 1000 < limit))
    (hch : ¬ (pyLower chamber = "house" ∨ pyLower chamber = "senate")) :
    getMembersByChamber store chamber skip limit =
      Except.error (ApiError.badRequest "Chamber must be House or Senate") ∧
    getMembersByChamber store chamber skip limit =
      getMembersByChamber store2 chamber skip limit := by
  constructor <;> simp [getMembersByChamber, hval, hch]

/-- Witness for C7 at the concrete invalid chamber `xyz`, against two
different stores. -/
theorem C7_witness :
    getMembersByChamber emptyStore "xyz" 0 100 =
      Except.error (ApiError.badRequest "Chamber must be House or Senate") ∧
    getMembersByChamber emptyStore "xyz" 0 100 =
      getMembersByChamber storeOneMember "xyz" 0 100 :=
  C7_invalid_chamber_rejected emptyStore storeOneMember "xyz" 0 100 (by decide) (by decide)

/-- C8: batch normalization is fault-isolated per record — processing a
batch always continues past any record (the fold structure processes
every remaining record), and a record whose transaction date fails to
parse (the exception caught inside `_save_senate_trade`) is skipped
without storing a trade, never aborting the batch. -/
theorem C8_fault_isolation (pre post : List RawSenateRecord) (bad : RawSenateRecord)
    (store : Store) :
    processSenateFile store (pre ++ bad :: post) =
      processSenateFile (saveSenateTrade (processSenateFile store pre) bad) post ∧
    (senateDate? bad.transaction_date = none →
      (saveSenateTrade (processSenateFile store pre) bad).trades =
        (processSenateFile store pre).trades) := by
  constructor
  · simp [processSenateFile, List.foldl_append]
  · intro h
    exact saveSenateTrade_trades_of_dateFail h _

/-- Witness for C8 on a concrete three-record batch whose middle record
has an unparsable date. -/
theorem C8_witness :
    processSenateFile emptyStore ([c8GoodRec] ++ c8BadRec :: [c8GoodRec2]) =
      processSenateFile (saveSenateTrade (processSenateFile emptyStore [c8GoodRec]) c8BadRec)
        [c8GoodRec2] ∧
    (saveSenateTrade (processSenateFile emptyStore [c8GoodRec]) c8BadRec).trades =
      (processSenateFile emptyStore [c8GoodRec]).trades :=
  ⟨(C8_fault_isolation [c8GoodRec] [c8GoodRec2] c8BadRec emptyStore).1,
   (C8_fault_isolation [c8GoodRec] [c8GoodRec2] c8BadRec emptyStore).2 (by decide)⟩

/-- C9 counterexample: the generator body has no division-by-zero
guard — at a zero from-amount the exchange-ratio computation raises the
division error instead of leaving the ratio unset, so the claimed
guarding behaviour is false at this input. -/
theorem C9_counterexample_zero_division :
    buildRealisticTrade 0 c9ZeroDraw = Except.error PyError.zeroDivision := by rfl

/-- C9 (amended): the realistic-data generator is disabled (it returns
before adding anything); in its loop body, exchange-specific fields are
populated exactly when the transaction kind is `Exchange`, the ratio is
computed as `round(to-amount / from-amount, 4)`, and there is no
division-by-zero guard — instead the from-amount draw is at least 1000,
so the zero case cannot arise during generation. -/
theorem C9_amended_exchange_enrichment :
    (∀ store : Store, addRealisticTradingData store = store) ∧
    (∀ (now : Int) (d : RealisticDraw), 1000 ≤ d.exchangeFromAmountDraw →
      ∃ t, buildRealisticTrade now d = Except.ok t ∧
        t.exchangeRatioValue =
          (if d.transactionType = "Exchange" then
            some (pyRound4 ((d.amountMinDraw : ℚ) / (d.exchangeFromAmountDraw : ℚ)))
          else none) ∧
        (¬ d.transactionType = "Exchange" →
          t.exchangeFromTicker = none ∧ t.exchangeFromCompany = none ∧
          t.exchangeFromAmount = none ∧ t.exchangeReason = none) ∧
        (d.transactionType = "Exchange" →
          t.exchangeFromTicker = some d.exchangeFromTickerDraw ∧
          t.exchangeFromAmount = some ((d.exchangeFromAmountDraw : ℚ)))) := by
  constructor
  · intro store
    rfl
  · intro now d hge
    by_cases he : d.transactionType = "Exchange"
    · have hz : ¬ d.exchangeFromAmountDraw = 0 := by omega
      refine ⟨realisticTradeRecord now d true, ?_, ?_, ?_, ?_⟩
      · simp [buildRealisticTrade, he, hz]
      · simp [realisticTradeRecord, he]
      · intro hne
        exact absurd he hne
      · intro _h
        exact ⟨rfl, rfl⟩
    · refine ⟨realisticTradeRecord now d false, ?_, ?_, ?_, ?_⟩
      · simp [buildRealisticTrade, he]
      · simp [realisticTradeRecord, he]
      · intro _h
        exact ⟨rfl, rfl, rfl, rfl⟩
      · intro hco
        exact absurd hco he

/-- Witness for C9 at a concrete in-range Exchange draw. -/
theorem C9_amended_witness :
    addRealisticTradingData emptyStore = emptyStore ∧
    (∃ t, buildRealisticTrade 0 c9GoodDraw = Except.ok t ∧
      t.exchangeRatioValue =
        (if c9GoodDraw.transactionType = "Exchange" then
          some (pyRound4
            ((c9GoodDraw.amountMinDraw : ℚ) / (c9GoodDraw.exchangeFromAmountDraw : ℚ)))
        else none) ∧
      (¬ c9GoodDraw.transactionType = "Exchange" →
        t.exchangeFromTicker = none ∧ t.exchangeFromCompany = none ∧
        t.exchangeFromAmount = none ∧ t.exchangeReason = none) ∧
      (c9GoodDraw.transactionType = "Exchange" →
        t.exchangeFromTicker = some c9GoodDraw.exchangeFromTickerDraw ∧
        t.exchangeFromAmount = some ((c9GoodDraw.exchangeFromAmountDraw : ℚ)))) :=
  ⟨C9_amended_exchange_enrichment.1 emptyStore,
   C9_amended_exchange_enrichment.2 0 c9GoodDraw (by decide)⟩

/-- C10: in the trade listing, a zero-valued `member_id`, `min_amount`
or `max_amount` parameter is treated exactly as an omitted parameter —
the result equals the result with the parameter absent, for every store
and every other filter combination. -/
theorem C10_zero_filters_ignored (store : Store) (skip limit : Int)
    (mid : Option Int) (chamber party ticker ttype : Option String)
    (sd ed : Option Int) (mnA mxA : Option ℚ) :
    getTrades store skip limit (some 0) chamber party ticker ttype sd ed mnA mxA =
      getTrades store skip limit none chamber party ticker ttype sd ed mnA mxA ∧
    getTrades store skip limit mid chamber party ticker ttype sd ed (some 0) mxA =
      getTrades store skip limit mid chamber party ticker ttype sd ed none mxA ∧
    getTrades store skip limit mid chamber party ticker ttype sd ed mnA (some 0) =
      getTrades store skip limit mid chamber party ticker ttype sd ed mnA none := by
  refine ⟨?_, ?_, ?_⟩ <;>
    simp only [getTrades, applyTradeFilters, optIntTruthy_zero, optIntTruthy_none,
      optRatTruthy_zero, optRatTruthy_none, filterIf_false]

end CongressTrading
